import Mathlib

/-!
Verification of the `grounds` report renderer (`src/report/report.py`).

The program is a linear pipeline: parse the CLI arguments `--in` and
`--out`, read the input file, parse it as JSON, read the fixed template
resource, build the rendering context (`title` via `data.get` with a
default, `data` as the whole document), render, write the result to the
output path, and print one status line.

The embedding below models the file system as a map from path strings to
optional contents, and makes the observable effects of a run explicit as
a trace of events.  The JSON parsing library (`json.loads`) and the
output-path writability check are black boxes per the spec, so `run` is
parameterized over them; a concrete executable JSON parser is provided
for evaluating the model on concrete inputs.
-/

namespace Grounds

/-- JSON values as produced by the `json.loads` black box (spec section 6).
Python maps JSON null to `None`, booleans to `bool`, numbers to `int`
(we only need integers), strings to `str`, arrays to `list` and objects
to `dict`. -/
inductive Json where
  | null : Json
  | bool (b : Bool) : Json
  | num (n : Int) : Json
  | str (s : String) : Json
  | arr (items : List Json) : Json
  | obj (fields : List (String × Json)) : Json
deriving Repr, Inhabited

/-- Whether the top-level Python value is a dict (JSON object). -/
def Json.isObj : Json → Bool
  | .obj _ => true
  | _ => false

mutual
/-- The Python `repr` form of a parsed JSON value, as used when a value
is shown inside a container by `str`. -/
def pyRepr : Json → String
  | .null => "None"
  | .bool true => "True"
  | .bool false => "False"
  | .num n => toString n
  | .str s => "'" ++ s ++ "'"
  | .arr xs => "[" ++ pyReprElems xs ++ "]"
  | .obj fs => "\x7b" ++ pyReprFields fs ++ "\x7d"

/-- Comma-separated `repr` forms of list elements. -/
def pyReprElems : List Json → String
  | [] => ""
  | [x] => pyRepr x
  | x :: xs => pyRepr x ++ ", " ++ pyReprElems xs

/-- Comma-separated `key: value` forms of dict entries. -/
def pyReprFields : List (String × Json) → String
  | [] => ""
  | [kv] => "'" ++ kv.1 ++ "': " ++ pyRepr kv.2
  | kv :: fs => "'" ++ kv.1 ++ "': " ++ pyRepr kv.2 ++ ", " ++ pyReprFields fs
end

/-- The Python `str` form of a parsed JSON value: a string prints as
itself, every other value prints as its `repr`. -/
def pyStr : Json → String
  | .str s => s
  | v => pyRepr v

/-- The `title` entry of the rendering context, from line 17 of
`report.py`: `data.get("title", "Grounds Report")`.  `dict.get` returns
the stored value whenever the key is present (even when that value is
`None`) and the default only when the key is absent; calling `.get` on a
non-dict raises `AttributeError`, modelled as `none`. -/
def contextTitle (data : Json) : Option Json :=
  match data with
  | .obj fields => some ((fields.lookup "title").getD (Json.str "Grounds Report"))
  | _ => none

/-- Modelled from the spec: the template asset `template.html.j2` is
referenced by `report.py` (line 6) but is not under `src/`.  Per spec
sections 3 and 8 the template is a static text with placeholder
expressions for the context entries `title` and `data`, and rendering
substitutes the string forms of those values into the fixed surrounding
markup. -/
def renderTemplate (title : Json) (data : Json) : String :=
  "<html><head><title>" ++ pyStr title ++ "</title></head><body><h1>" ++
    pyStr title ++ "</h1><pre>" ++ pyStr data ++ "</pre></body></html>"

/-- The path of the fixed template resource (`HERE / "template.html.j2"`,
lines 5 and 6 of `report.py`). -/
def TEMPLATE : String := "src/report/template.html.j2"

/-- A file system: each path maps to the contents of the file there, or
to `none` when no readable file exists at that path. -/
abbrev FS := String → Option String

/-- The parsed command line: values of `--in` (dest `inp`) and `--out`
(dest `out`), `none` when the flag was omitted. -/
structure Args where
  inp : Option String
  out : Option String
deriving Repr, DecidableEq

/-- Observable events of a run, in order: file reads attempted at lines
15 and 16, the file write of line 18, the status line of line 19, and
diagnostic output on a fatal error. -/
inductive Event where
  | readInputFile (path : String) : Event
  | readTemplateFile (path : String) : Event
  | writeFile (path : String) (contents : String) : Event
  | outLine (line : String) : Event
  | errLine (line : String) : Event
deriving Repr, DecidableEq

/-- How a run terminates abnormally: `usage` is an `argparse` exit for a
missing required flag; the rest are uncaught Python exceptions from
lines 15 to 18. -/
inductive RunError where
  | usage : RunError
  | inputUnreadable : RunError
  | invalidJson : RunError
  | templateUnreadable : RunError
  | titleAttrError : RunError
  | outputUnwritable : RunError
deriving Repr, DecidableEq

/-- The observable outcome of one invocation of `main`. -/
structure Outcome where
  result : Except RunError Unit
  fs : FS
  trace : List Event

/-- The process exit status: `argparse` exits with 2 on a usage error,
an uncaught exception exits with 1, success exits with 0. -/
def exitCodeOf : Except RunError Unit → Nat
  | .ok _ => 0
  | .error .usage => 2
  | .error _ => 1

/-- The required flags missing from the command line, as collected by
`argparse` (lines 11 and 12: both `--in` and `--out` are `required`). -/
def missingArgs (a : Args) : List String :=
  (if a.inp = none then ["--in"] else []) ++ (if a.out = none then ["--out"] else [])

/-- The `argparse` diagnostic for missing required flags. -/
def usageMessage (missing : List String) : String :=
  "error: the following arguments are required: " ++ String.intercalate ", " missing

/-- `main` of `report.py`, lines 10 to 19, as a function of the
`json.loads` black box `parse`, the writability of output paths
`writable`, the parsed command line and the file system.  The pipeline
is strictly sequential: argument check, input read (line 15), JSON parse
(line 15), template read (line 16), context construction (line 17),
render and write (lines 17 and 18), status line (line 19).  Each failure
terminates the run at once, leaving the file system unchanged. -/
def run (parse : String → Option Json) (writable : String → Bool)
    (a : Args) (fs : FS) : Outcome :=
  match a.inp, a.out with
  | some inp, some out =>
    match fs inp with
    | none =>
      { result := .error .inputUnreadable, fs := fs,
        trace := [.readInputFile inp,
                  .errLine ("FileNotFoundError: " ++ inp)] }
    | some raw =>
      match parse raw with
      | none =>
        { result := .error .invalidJson, fs := fs,
          trace := [.readInputFile inp,
                    .errLine "json.decoder.JSONDecodeError: Expecting value"] }
      | some data =>
        match fs TEMPLATE with
        | none =>
          { result := .error .templateUnreadable, fs := fs,
            trace := [.readInputFile inp, .readTemplateFile TEMPLATE,
                      .errLine ("FileNotFoundError: " ++ TEMPLATE)] }
        | some _tplText =>
          match contextTitle data with
          | none =>
            { result := .error .titleAttrError, fs := fs,
              trace := [.readInputFile inp, .readTemplateFile TEMPLATE,
                        .errLine "AttributeError: object has no attribute get"] }
          | some title =>
            let html := renderTemplate title data
            if writable out then
              { result := .ok (),
                fs := fun p => if p = out then some html else fs p,
                trace := [.readInputFile inp, .readTemplateFile TEMPLATE,
                          .writeFile out html,
                          .outLine ("Wrote: " ++ out)] }
            else
              { result := .error .outputUnwritable, fs := fs,
                trace := [.readInputFile inp, .readTemplateFile TEMPLATE,
                          .errLine ("PermissionError: " ++ out)] }
  | _, _ =>
    { result := .error .usage, fs := fs,
      trace := [.errLine (usageMessage (missingArgs a))] }

/-- Whether an event is a file write. -/
def Event.isWrite : Event → Bool
  | .writeFile _ _ => true
  | _ => false

/-- Whether an event is a line of status output on stdout. -/
def Event.isOut : Event → Bool
  | .outLine _ => true
  | _ => false

/-- Whether an event is a read of the template resource. -/
def Event.isTemplateRead : Event → Bool
  | .readTemplateFile _ => true
  | _ => false

/-- Whether an event is a read of any file. -/
def Event.isRead : Event → Bool
  | .readInputFile _ => true
  | .readTemplateFile _ => true
  | _ => false

/-! ### An executable JSON parser

A concrete instance of the `json.loads` black box, used to evaluate the
model on concrete inputs.  It covers the JSON fragment the witnesses
need: `null`, booleans, integers, escape-free strings, arrays and
objects, with whitespace. -/

/-- An opening brace character. -/
def lbrace : Char := Char.ofNat 123

/-- A closing brace character. -/
def rbrace : Char := Char.ofNat 125

/-- Drop leading JSON whitespace. -/
def skipWs : List Char → List Char
  | c :: cs =>
    if c = ' ' ∨ c = '\n' ∨ c = '\t' ∨ c = '\r' then skipWs cs else c :: cs
  | [] => []

/-- Split a character list into its longest digit prefix and the rest. -/
def takeDigits : List Char → List Char × List Char
  | c :: cs =>
    if c.isDigit then
      let (ds, rest) := takeDigits cs
      (c :: ds, rest)
    else ([], c :: cs)
  | [] => ([], [])

/-- The number denoted by a list of decimal digits. -/
def digitsToNat (acc : Nat) : List Char → Nat
  | [] => acc
  | c :: cs => digitsToNat (acc * 10 + (c.toNat - 48)) cs

/-- Read the body of a string literal up to the closing quote; escape
sequences are not supported. -/
def takeStringChars : List Char → Option (List Char × List Char)
  | [] => none
  | c :: cs =>
    if c = '"' then some ([], cs)
    else if c = '\\' then none
    else
      match takeStringChars cs with
      | some (s, rest) => some (c :: s, rest)
      | none => none

/-- Consume an expected keyword suffix. -/
def dropKeyword (kw : List Char) (cs : List Char) : Option (List Char) :=
  if kw.isPrefixOf cs then some (cs.drop kw.length) else none

mutual
/-- Parse one JSON value; `fuel` bounds the recursion depth. -/
def parseVal (fuel : Nat) (cs : List Char) : Option (Json × List Char) :=
  match fuel with
  | 0 => none
  | fuel + 1 =>
    match skipWs cs with
    | [] => none
    | c :: rest =>
      if c = 'n' then
        match dropKeyword ['u', 'l', 'l'] rest with
        | some rest1 => some (.null, rest1)
        | none => none
      else if c = 't' then
        match dropKeyword ['r', 'u', 'e'] rest with
        | some rest1 => some (.bool true, rest1)
        | none => none
      else if c = 'f' then
        match dropKeyword ['a', 'l', 's', 'e'] rest with
        | some rest1 => some (.bool false, rest1)
        | none => none
      else if c = '"' then
        match takeStringChars rest with
        | some (s, rest1) => some (.str (String.mk s), rest1)
        | none => none
      else if c = '-' then
        match takeDigits rest with
        | ([], _) => none
        | (ds, rest1) => some (.num (-(digitsToNat 0 ds : Int)), rest1)
      else if c.isDigit then
        let (ds, rest1) := takeDigits (c :: rest)
        some (.num (digitsToNat 0 ds : Int), rest1)
      else if c = '[' then
        match skipWs rest with
        | c1 :: rest1 =>
          if c1 = ']' then some (.arr [], rest1)
          else
            match parseElems fuel (c1 :: rest1) with
            | some (xs, rest2) =>
              match skipWs rest2 with
              | c2 :: rest3 => if c2 = ']' then some (.arr xs, rest3) else none
              | [] => none
            | none => none
        | [] => none
      else if c = lbrace then
        match skipWs rest with
        | c1 :: rest1 =>
          if c1 = rbrace then some (.obj [], rest1)
          else
            match parseMembers fuel (c1 :: rest1) with
            | some (ms, rest2) =>
              match skipWs rest2 with
              | c2 :: rest3 => if c2 = rbrace then some (.obj ms, rest3) else none
              | [] => none
            | none => none
        | [] => none
      else none

/-- Parse a nonempty comma-separated list of JSON values. -/
def parseElems (fuel : Nat) (cs : List Char) : Option (List Json × List Char) :=
  match fuel with
  | 0 => none
  | fuel + 1 =>
    match parseVal fuel cs with
    | none => none
    | some (v, rest) =>
      match skipWs rest with
      | c :: rest1 =>
        if c = ',' then
          match parseElems fuel rest1 with
          | some (vs, rest2) => some (v :: vs, rest2)
          | none => none
        else some ([v], c :: rest1)
      | [] => some ([v], [])

/-- Parse a nonempty comma-separated list of JSON object members. -/
def parseMembers (fuel : Nat) (cs : List Char) :
    Option (List (String × Json) × List Char) :=
  match fuel with
  | 0 => none
  | fuel + 1 =>
    match skipWs cs with
    | [] => none
    | c :: rest =>
      if c = '"' then
        match takeStringChars rest with
        | none => none
        | some (k, rest1) =>
          match skipWs rest1 with
          | [] => none
          | c1 :: rest2 =>
            if c1 = ':' then
              match parseVal fuel rest2 with
              | none => none
              | some (v, rest3) =>
                match skipWs rest3 with
                | [] => some ([(String.mk k, v)], [])
                | c2 :: rest4 =>
                  if c2 = ',' then
                    match parseMembers fuel rest4 with
                    | some (ms, rest5) => some ((String.mk k, v) :: ms, rest5)
                    | none => none
                  else some ([(String.mk k, v)], c2 :: rest4)
            else none
      else none
end

/-- A concrete instance of the `json.loads` black box: parse the whole
input as one JSON value, rejecting trailing garbage. -/
def jsonLoads (s : String) : Option Json :=
  let cs := s.toList
  match parseVal (2 * cs.length + 2) cs with
  | some (v, rest) => if skipWs rest = [] then some v else none
  | none => none

/-! ### Concrete fixtures for evaluating the model -/

/-- A file system holding a well-formed report document and the template
resource. -/
def fsReport : FS := fun p =>
  if p = "report.json" then
    some "\x7b\"title\": \"Q1 Report\", \"rows\": [1, 2, 3]\x7d"
  else if p = TEMPLATE then some "template markup"
  else none

/-- A file system whose report document is a JSON object with no `title`
key. -/
def fsNoTitle : FS := fun p =>
  if p = "report.json" then some "\x7b\"rows\": [1, 2, 3]\x7d"
  else if p = TEMPLATE then some "template markup"
  else none

/-- A file system whose report document maps `title` to JSON null. -/
def fsNullTitle : FS := fun p =>
  if p = "report.json" then some "\x7b\"title\": null\x7d"
  else if p = TEMPLATE then some "template markup"
  else none

/-- A file system whose report document is a JSON array, not an object. -/
def fsArray : FS := fun p =>
  if p = "arr.json" then some "[1, 2, 3]"
  else if p = TEMPLATE then some "template markup"
  else none

/-- A file system whose report document is truncated, hence not valid
JSON. -/
def fsBadJson : FS := fun p =>
  if p = "bad.json" then some "\x7b\"title\": "
  else if p = TEMPLATE then some "template markup"
  else if p = "out.html" then some "stale output"
  else none

/-- A file system with no report document at all. -/
def fsMissing : FS := fun p =>
  if p = TEMPLATE then some "template markup"
  else none

/-- An output-path writability check that accepts every path. -/
def allWritable : String → Bool := fun _ => true

/-! ### Theorems -/

/-- A rendered document is never the empty string: the fixed markup
around the placeholders is itself nonempty. -/
theorem renderTemplate_ne_empty (t d : Json) : renderTemplate t d ≠ "" := by
  intro h
  have h2 := congrArg String.length h
  simp only [renderTemplate, String.length_append] at h2
  have h3 : ("<html><head><title>" : String).length = 19 := by decide
  have h4 : ("" : String).length = 0 := by decide
  omega

/-- C1: for every input file holding a JSON object whose `title` field
is the string X, a successful run writes an output file whose text
contains X; when the object has no `title` key, the output text contains
the fixed default title string `Grounds Report` from line 17 of
`report.py`. -/
theorem title_substitution
    (parse : String → Option Json) (writable : String → Bool)
    (inp out raw tpl : String) (fields : List (String × Json)) (fs : FS)
    (hin : fs inp = some raw)
    (hparse : parse raw = some (.obj fields))
    (htpl : fs TEMPLATE = some tpl)
    (hw : writable out = true) :
    (∀ X, fields.lookup "title" = some (.str X) →
      ∃ html, (run parse writable ⟨some inp, some out⟩ fs).fs out = some html ∧
        ∃ l r, html = l ++ X ++ r) ∧
    (fields.lookup "title" = none →
      ∃ html, (run parse writable ⟨some inp, some out⟩ fs).fs out = some html ∧
        ∃ l r, html = l ++ "Grounds Report" ++ r) := by
  constructor
  · intro X hX
    refine ⟨renderTemplate (.str X) (.obj fields), ?_, ?_⟩
    · simp [run, hin, hparse, htpl, contextTitle, hX, hw]
    · exact ⟨"<html><head><title>",
        "</title></head><body><h1>" ++ X ++ "</h1><pre>" ++ pyStr (.obj fields) ++
          "</pre></body></html>",
        by simp only [renderTemplate, pyStr, String.append_assoc]⟩
  · intro hX
    refine ⟨renderTemplate (.str "Grounds Report") (.obj fields), ?_, ?_⟩
    · simp [run, hin, hparse, htpl, contextTitle, hX, hw]
    · exact ⟨"<html><head><title>",
        "</title></head><body><h1>" ++ "Grounds Report" ++ "</h1><pre>" ++
          pyStr (.obj fields) ++ "</pre></body></html>",
        by simp only [renderTemplate, pyStr, String.append_assoc]⟩

/-- Witness for C1 at concrete inputs: a document with
`title: Q1 Report` renders to text containing `Q1 Report`, and a
document with no `title` key renders to text containing
`Grounds Report`. -/
theorem title_substitution_check :
    (∃ html, (run jsonLoads allWritable ⟨some "report.json", some "out.html"⟩ fsReport).fs
        "out.html" = some html ∧ ∃ l r, html = l ++ "Q1 Report" ++ r) ∧
    (∃ html, (run jsonLoads allWritable ⟨some "report.json", some "out.html"⟩ fsNoTitle).fs
        "out.html" = some html ∧ ∃ l r, html = l ++ "Grounds Report" ++ r) :=
  ⟨(title_substitution jsonLoads allWritable "report.json" "out.html"
      "\x7b\"title\": \"Q1 Report\", \"rows\": [1, 2, 3]\x7d" "template markup"
      [("title", .str "Q1 Report"), ("rows", .arr [.num 1, .num 2, .num 3])]
      fsReport rfl rfl rfl rfl).1 "Q1 Report" rfl,
   (title_substitution jsonLoads allWritable "report.json" "out.html"
      "\x7b\"rows\": [1, 2, 3]\x7d" "template markup"
      [("rows", .arr [.num 1, .num 2, .num 3])]
      fsNoTitle rfl rfl rfl rfl).2 rfl⟩

/-- C2 counterexample: the input `[1, 2, 3]` is a valid JSON value
(the concrete parser accepts it), yet the run terminates with an
`AttributeError` at the `title` lookup of line 17 and writes no output
file.  The claim that no valid JSON input is rejected is therefore
false: only JSON objects reach the write. -/
theorem array_input_rejected :
    jsonLoads "[1, 2, 3]" = some (.arr [.num 1, .num 2, .num 3]) ∧
    (run jsonLoads allWritable ⟨some "arr.json", some "out.html"⟩ fsArray).result
      = .error .titleAttrError ∧
    (run jsonLoads allWritable ⟨some "arr.json", some "out.html"⟩ fsArray).fs "out.html"
      = none :=
  ⟨rfl, rfl, rfl⟩

/-- C2 as amended: for every input file holding a valid JSON object,
the run succeeds and writes a nonempty output file whose text contains
the string form of the substituted document. -/
theorem object_input_rendered
    (parse : String → Option Json) (writable : String → Bool)
    (inp out raw tpl : String) (fields : List (String × Json)) (fs : FS)
    (hin : fs inp = some raw)
    (hparse : parse raw = some (.obj fields))
    (htpl : fs TEMPLATE = some tpl)
    (hw : writable out = true) :
    (run parse writable ⟨some inp, some out⟩ fs).result = .ok () ∧
    ∃ html, (run parse writable ⟨some inp, some out⟩ fs).fs out = some html ∧
      html ≠ "" ∧ ∃ l r, html = l ++ pyStr (Json.obj fields) ++ r := by
  have hct : contextTitle (Json.obj fields)
      = some ((fields.lookup "title").getD (Json.str "Grounds Report")) := rfl
  refine ⟨?_,
    renderTemplate ((fields.lookup "title").getD (Json.str "Grounds Report"))
      (Json.obj fields), ?_, renderTemplate_ne_empty _ _, ?_⟩
  · simp [run, hin, hparse, htpl, hct, hw]
  · simp [run, hin, hparse, htpl, hct, hw]
  · exact ⟨"<html><head><title>" ++
        pyStr ((fields.lookup "title").getD (Json.str "Grounds Report")) ++
        "</title></head><body><h1>" ++
        pyStr ((fields.lookup "title").getD (Json.str "Grounds Report")) ++
        "</h1><pre>", "</pre></body></html>",
      by simp only [renderTemplate, String.append_assoc]⟩

/-- Witness for the amended C2 at a concrete object input. -/
theorem object_input_rendered_check :
    (run jsonLoads allWritable ⟨some "report.json", some "out.html"⟩ fsReport).result
      = .ok () ∧
    ∃ html, (run jsonLoads allWritable ⟨some "report.json", some "out.html"⟩ fsReport).fs
        "out.html" = some html ∧
      html ≠ "" ∧
      ∃ l r, html = l ++
        pyStr (Json.obj [("title", .str "Q1 Report"),
          ("rows", .arr [.num 1, .num 2, .num 3])]) ++ r :=
  object_input_rendered jsonLoads allWritable "report.json" "out.html"
    "\x7b\"title\": \"Q1 Report\", \"rows\": [1, 2, 3]\x7d" "template markup"
    [("title", .str "Q1 Report"), ("rows", .arr [.num 1, .num 2, .num 3])]
    fsReport rfl rfl rfl rfl

/-- C3: when the input file exists but its contents fail to parse as
JSON, the run terminates with a fatal `JSONDecodeError` exit and the
whole file system is unchanged: no file is created at the output path
and an existing file there keeps its exact contents. -/
theorem invalid_json_fatal
    (parse : String → Option Json) (writable : String → Bool)
    (inp out raw : String) (fs : FS)
    (hin : fs inp = some raw) (hparse : parse raw = none) :
    (run parse writable ⟨some inp, some out⟩ fs).result = .error .invalidJson ∧
    exitCodeOf (run parse writable ⟨some inp, some out⟩ fs).result ≠ 0 ∧
    (run parse writable ⟨some inp, some out⟩ fs).fs = fs := by
  simp [run, hin, hparse, exitCodeOf]

/-- Witness for C3: a truncated document is rejected and the stale
output file is untouched. -/
theorem invalid_json_fatal_check :
    (run jsonLoads allWritable ⟨some "bad.json", some "out.html"⟩ fsBadJson).result
      = .error .invalidJson ∧
    exitCodeOf (run jsonLoads allWritable ⟨some "bad.json", some "out.html"⟩
      fsBadJson).result ≠ 0 ∧
    (run jsonLoads allWritable ⟨some "bad.json", some "out.html"⟩ fsBadJson).fs
      = fsBadJson :=
  invalid_json_fatal jsonLoads allWritable "bad.json" "out.html" "\x7b\"title\": "
    fsBadJson rfl rfl

/-- C4: when the input read fails or the input fails to parse as JSON,
the run terminates with a nonzero exit and the template resource is
never read: the pipeline stops before line 16 of `report.py`. -/
theorem input_failure_precedes_template
    (parse : String → Option Json) (writable : String → Bool)
    (inp out : String) (fs : FS)
    (h : fs inp = none ∨ ∃ raw, fs inp = some raw ∧ parse raw = none) :
    exitCodeOf (run parse writable ⟨some inp, some out⟩ fs).result ≠ 0 ∧
    ∀ e ∈ (run parse writable ⟨some inp, some out⟩ fs).trace,
      e.isTemplateRead = false := by
  rcases h with h | ⟨raw, hin, hparse⟩
  · simp [run, h, exitCodeOf, Event.isTemplateRead]
  · simp [run, hin, hparse, exitCodeOf, Event.isTemplateRead]

/-- Witness for C4: with no file at the input path, the run fails and
its trace holds no template read. -/
theorem input_failure_precedes_template_check :
    exitCodeOf (run jsonLoads allWritable ⟨some "report.json", some "out.html"⟩
      fsMissing).result ≠ 0 ∧
    ∀ e ∈ (run jsonLoads allWritable ⟨some "report.json", some "out.html"⟩
      fsMissing).trace, e.isTemplateRead = false :=
  input_failure_precedes_template jsonLoads allWritable "report.json" "out.html"
    fsMissing (Or.inl rfl)

/-- C5: rendering is deterministic.  After a successful run, a second
run with the same arguments on the resulting file system, reading the
same input contents, leaves the exact same bytes at the output path:
the transform from input document to output text is a pure function. -/
theorem render_deterministic
    (parse : String → Option Json) (writable : String → Bool)
    (inp out raw : String) (fs : FS)
    (hin : fs inp = some raw)
    (hok : (run parse writable ⟨some inp, some out⟩ fs).result = .ok ())
    (hsame : (run parse writable ⟨some inp, some out⟩ fs).fs inp = some raw) :
    (run parse writable ⟨some inp, some out⟩
        ((run parse writable ⟨some inp, some out⟩ fs).fs)).fs out
      = (run parse writable ⟨some inp, some out⟩ fs).fs out := by
  cases hp : parse raw with
  | none => simp [run, hin, hp] at hok
  | some data =>
    cases ht : fs TEMPLATE with
    | none => simp [run, hin, hp, ht] at hok
    | some tpl =>
      cases hc : contextTitle data with
      | none => simp [run, hin, hp, ht, hc] at hok
      | some title =>
        cases hw : writable out with
        | false => simp [run, hin, hp, ht, hc, hw] at hok
        | true =>
          have hfs1 : (run parse writable ⟨some inp, some out⟩ fs).fs
              = fun p => if p = out then some (renderTemplate title data) else fs p := by
            simp [run, hin, hp, ht, hc, hw]
          have h1in : (if inp = out then some (renderTemplate title data) else fs inp)
              = some raw := by
            rw [hfs1] at hsame; exact hsame
          obtain ⟨t1, ht1⟩ :
              ∃ t1, (if TEMPLATE = out then some (renderTemplate title data)
                  else fs TEMPLATE) = some t1 := by
            by_cases hto : TEMPLATE = out <;> simp [hto, ht]
          rw [hfs1]
          simp [run, h1in, hp, hc, hw, ht1]

/-- Witness for C5: running the report fixture twice in a row leaves
identical output bytes. -/
theorem render_deterministic_check :
    (run jsonLoads allWritable ⟨some "report.json", some "out.html"⟩
        ((run jsonLoads allWritable ⟨some "report.json", some "out.html"⟩ fsReport).fs)).fs
        "out.html"
      = (run jsonLoads allWritable ⟨some "report.json", some "out.html"⟩ fsReport).fs
        "out.html" :=
  render_deterministic jsonLoads allWritable "report.json" "out.html"
    "\x7b\"title\": \"Q1 Report\", \"rows\": [1, 2, 3]\x7d" fsReport rfl rfl rfl

/-- C6: every successful run exits with status zero, performs exactly
one file write, namely to the output path given by `--out` (overwriting
whatever was there), and prints exactly one status line, of the form
`Wrote:` followed by the output path. -/
theorem success_single_write
    (parse : String → Option Json) (writable : String → Bool) (a : Args) (fs : FS)
    (hok : (run parse writable a fs).result = .ok ()) :
    exitCodeOf (run parse writable a fs).result = 0 ∧
    ∃ out html, a.out = some out ∧
      ((run parse writable a fs).trace.filter Event.isWrite)
        = [Event.writeFile out html] ∧
      (run parse writable a fs).fs out = some html ∧
      ((run parse writable a fs).trace.filter Event.isOut)
        = [Event.outLine ("Wrote: " ++ out)] := by
  obtain ⟨i, o⟩ := a
  cases i with
  | none => cases o <;> simp [run] at hok
  | some inp =>
    cases o with
    | none => simp [run] at hok
    | some out =>
      cases hin : fs inp with
      | none => simp [run, hin] at hok
      | some raw =>
        cases hp : parse raw with
        | none => simp [run, hin, hp] at hok
        | some data =>
          cases ht : fs TEMPLATE with
          | none => simp [run, hin, hp, ht] at hok
          | some tpl =>
            cases hc : contextTitle data with
            | none => simp [run, hin, hp, ht, hc] at hok
            | some title =>
              cases hw : writable out with
              | false => simp [run, hin, hp, ht, hc, hw] at hok
              | true =>
                refine ⟨?_, out, renderTemplate title data, rfl, ?_, ?_, ?_⟩ <;>
                  simp [run, hin, hp, ht, hc, hw, exitCodeOf,
                    Event.isWrite, Event.isOut, List.filter]

/-- Witness for C6 on the report fixture: the successful run writes
once to `out.html` and prints one `Wrote:` line. -/
theorem success_single_write_check :
    exitCodeOf (run jsonLoads allWritable ⟨some "report.json", some "out.html"⟩
      fsReport).result = 0 ∧
    ∃ out html, (Args.mk (some "report.json") (some "out.html")).out = some out ∧
      ((run jsonLoads allWritable ⟨some "report.json", some "out.html"⟩
          fsReport).trace.filter Event.isWrite) = [Event.writeFile out html] ∧
      (run jsonLoads allWritable ⟨some "report.json", some "out.html"⟩ fsReport).fs out
        = some html ∧
      ((run jsonLoads allWritable ⟨some "report.json", some "out.html"⟩
          fsReport).trace.filter Event.isOut) = [Event.outLine ("Wrote: " ++ out)] :=
  success_single_write jsonLoads allWritable ⟨some "report.json", some "out.html"⟩
    fsReport rfl

/-- C7: when `--in` or `--out` is omitted, the run exits with a nonzero
status carrying an `argparse` diagnostic, the file system is untouched,
and the trace holds exactly one diagnostic line: no file is read and no
file is written. -/
theorem missing_arg_fatal
    (parse : String → Option Json) (writable : String → Bool) (a : Args) (fs : FS)
    (h : a.inp = none ∨ a.out = none) :
    exitCodeOf (run parse writable a fs).result ≠ 0 ∧
    (run parse writable a fs).fs = fs ∧
    (∃ msg, (run parse writable a fs).trace = [Event.errLine msg]) ∧
    ∀ e ∈ (run parse writable a fs).trace, e.isRead = false ∧ e.isWrite = false := by
  obtain ⟨i, o⟩ := a
  rcases h with h | h
  · subst h
    cases o <;> simp [run, exitCodeOf, Event.isRead, Event.isWrite]
  · subst h
    cases i <;> simp [run, exitCodeOf, Event.isRead, Event.isWrite]

/-- Witness for C7: omitting `--in` fails without touching any file. -/
theorem missing_arg_fatal_check :
    exitCodeOf (run jsonLoads allWritable ⟨none, some "out.html"⟩ fsReport).result ≠ 0 ∧
    (run jsonLoads allWritable ⟨none, some "out.html"⟩ fsReport).fs = fsReport ∧
    (∃ msg, (run jsonLoads allWritable ⟨none, some "out.html"⟩ fsReport).trace
      = [Event.errLine msg]) ∧
    ∀ e ∈ (run jsonLoads allWritable ⟨none, some "out.html"⟩ fsReport).trace,
      e.isRead = false ∧ e.isWrite = false :=
  missing_arg_fatal jsonLoads allWritable ⟨none, some "out.html"⟩ fsReport (Or.inl rfl)

/-- C8: when the input parses to a JSON value that is not an object,
the run terminates with the `AttributeError` raised by `data.get` at
line 17, an error kind distinct from the unreadable-input, invalid-JSON
and unwritable-output kinds of the spec taxonomy, and the file system is
unchanged: no output file is written. -/
theorem non_object_title_fatal
    (parse : String → Option Json) (writable : String → Bool)
    (inp out raw tpl : String) (v : Json) (fs : FS)
    (hin : fs inp = some raw) (hparse : parse raw = some v)
    (hobj : v.isObj = false) (htpl : fs TEMPLATE = some tpl) :
    (run parse writable ⟨some inp, some out⟩ fs).result = .error .titleAttrError ∧
    (run parse writable ⟨some inp, some out⟩ fs).fs = fs ∧
    RunError.titleAttrError ≠ .inputUnreadable ∧
    RunError.titleAttrError ≠ .invalidJson ∧
    RunError.titleAttrError ≠ .outputUnwritable := by
  have hct : contextTitle v = none := by
    cases v <;> simp_all [contextTitle, Json.isObj]
  simp [run, hin, hparse, htpl, hct]

/-- Witness for C8: the array fixture fails at the title lookup with the
file system untouched. -/
theorem non_object_title_fatal_check :
    (run jsonLoads allWritable ⟨some "arr.json", some "out.html"⟩ fsArray).result
      = .error .titleAttrError ∧
    (run jsonLoads allWritable ⟨some "arr.json", some "out.html"⟩ fsArray).fs = fsArray ∧
    RunError.titleAttrError ≠ .inputUnreadable ∧
    RunError.titleAttrError ≠ .invalidJson ∧
    RunError.titleAttrError ≠ .outputUnwritable :=
  non_object_title_fatal jsonLoads allWritable "arr.json" "out.html" "[1, 2, 3]"
    "template markup" (.arr [.num 1, .num 2, .num 3]) fsArray rfl rfl rfl rfl

/-- C9: the write of line 18 is the last pipeline step, so every
failure during argument parsing, input reading, JSON parsing, template
loading or context construction leaves the whole file system unchanged:
nothing is created at the output path and an existing file there keeps
its contents. -/
theorem pre_write_failure_preserves_output
    (parse : String → Option Json) (writable : String → Bool) (a : Args) (fs : FS)
    (e : RunError)
    (herr : (run parse writable a fs).result = .error e)
    (hnw : e ≠ .outputUnwritable) :
    (run parse writable a fs).fs = fs := by
  obtain ⟨i, o⟩ := a
  cases i with
  | none => cases o <;> simp [run]
  | some inp =>
    cases o with
    | none => simp [run]
    | some out =>
      cases hin : fs inp with
      | none => simp [run, hin]
      | some raw =>
        cases hp : parse raw with
        | none => simp [run, hin, hp]
        | some data =>
          cases ht : fs TEMPLATE with
          | none => simp [run, hin, hp, ht]
          | some tpl =>
            cases hc : contextTitle data with
            | none => simp [run, hin, hp, ht, hc]
            | some title =>
              cases hw : writable out with
              | false => simp [run, hin, hp, ht, hc, hw]
              | true => simp [run, hin, hp, ht, hc, hw] at herr

/-- Witness for C9: the invalid-JSON failure leaves the file system as
it was. -/
theorem pre_write_failure_preserves_output_check :
    (run jsonLoads allWritable ⟨some "bad.json", some "out.html"⟩ fsBadJson).fs
      = fsBadJson :=
  pre_write_failure_preserves_output jsonLoads allWritable
    ⟨some "bad.json", some "out.html"⟩ fsBadJson .invalidJson rfl (by decide)

/-- C10: the default applies only when the `title` key is absent.  When
the document maps `title` to JSON null, the rendering context binds
`title` to null (Python `None`), not to the default string
`Grounds Report`, and a successful run renders with the null title. -/
theorem null_title_not_defaulted
    (fields : List (String × Json))
    (h : fields.lookup "title" = some Json.null) :
    contextTitle (Json.obj fields) = some Json.null ∧
    Json.null ≠ Json.str "Grounds Report" ∧
    ∀ (parse : String → Option Json) (writable : String → Bool)
      (inp out raw tpl : String) (fs : FS),
      fs inp = some raw → parse raw = some (Json.obj fields) →
      fs TEMPLATE = some tpl → writable out = true →
      (run parse writable ⟨some inp, some out⟩ fs).fs out
        = some (renderTemplate Json.null (Json.obj fields)) := by
  have hct : contextTitle (Json.obj fields) = some Json.null := by
    simp [contextTitle, h]
  refine ⟨hct, fun heq => Json.noConfusion heq, ?_⟩
  intro parse writable inp out raw tpl fs hin hparse htpl hw
  simp [run, hin, hparse, htpl, hct, hw]

/-- Witness for C10: a document whose `title` is null renders with a
null title, not the default. -/
theorem null_title_not_defaulted_check :
    contextTitle (Json.obj [("title", Json.null)]) = some Json.null ∧
    Json.null ≠ Json.str "Grounds Report" ∧
    (run jsonLoads allWritable ⟨some "report.json", some "out.html"⟩ fsNullTitle).fs
        "out.html"
      = some (renderTemplate Json.null (Json.obj [("title", Json.null)])) := by
  obtain ⟨h1, h2, h3⟩ := null_title_not_defaulted [("title", Json.null)] rfl
  exact ⟨h1, h2, h3 jsonLoads allWritable "report.json" "out.html"
    "\x7b\"title\": null\x7d" "template markup" fsNullTitle rfl rfl rfl rfl⟩

end Grounds
